import Mathlib

/-!
# Verification of the music_presence track-update pipeline

A shallow embedding of `src/main.rs` of the `music_presence` repository.
The embedding covers:

* `TrackInfo` and its custom `Deserialize` impl (`decodeTrack`), including
  the `file://` scheme stripping, the `length` string parse and the
  `paused` derivation from the `status` field;
* the `PartialEq` impl for `TrackInfo` (`TrackInfo.beq`);
* the media listener loop body of `media_listener::subscribe`
  (`stepLine` / `stepLineL`), with its upload deduplication via the
  `last_track` key;
* the resize decision of `media_listener::upload_cover`
  (`resizeDecision`, `uploadSourcePath`);
* the presence controller `App::handle`, `App::set_activity` and
  `App::clear_activity`, with the fallible Discord IPC operations
  abstracted by a boolean oracle (`Ipc`) and the remotely displayed
  activity mirrored in a `World` record;
* the retry loop of `main` (`retryAux` / `processUpdate`), which emits an
  event trace recording handle attempts, session discards, sleeps and the
  final drop of an update.

Rust `i64` arithmetic is modelled by `Int` (division by 1000 is the
truncating `Int.tdiv`, matching Rust's `/` on `i64`); `Option`/`Result`
returns model fallible Rust code.
-/

/-- Canonical now-playing snapshot; field for field the Rust struct
`track_info::TrackInfo`. -/
structure TrackInfo where
  title : String
  artist : String
  album : String
  art_url : String
  player : String
  art_is_local : Bool
  start : Int
  length : Int
  paused : Bool
  deriving Repr, DecidableEq

/-- `Default` impl derived for the Rust struct: all strings empty, numbers
zero, booleans false. -/
def TrackInfo.dflt : TrackInfo :=
  { title := "", artist := "", album := "", art_url := "", player := "",
    art_is_local := false, start := 0, length := 0, paused := false }

/-- The `PartialEq for TrackInfo` impl: compares title, artist, album,
`art_is_local` and length only. -/
def TrackInfo.beq (a b : TrackInfo) : Bool :=
  a.title == b.title && a.artist == b.artist && a.album == b.album
    && a.art_is_local == b.art_is_local && a.length == b.length

/-- A JSON value as far as the deserializer inspects one: either a string
(on which `Value::as_str` succeeds) or anything else. -/
inductive JVal where
  | str (s : String)
  | other
  deriving Repr, DecidableEq

/-- The `serde_json::Map` the custom `Deserialize` impl receives. -/
def JMap := List (String × JVal)

/-- `Map::get`. -/
def jget (m : JMap) (k : String) : Option JVal :=
  (List.find? (fun p => p.1 == k) m).map (fun p => p.2)

/-- `Value::as_str` on an optional value, as used in the chains
`map.get(k).and_then(v.as_str())`. -/
def asStr : Option JVal → Option String
  | some (.str s) => some s
  | _ => none

/-- Strip a literal character-list marker from the front of a list,
modelling `str::strip_prefix` for the ASCII marker used in the source. -/
def stripPre : List Char → List Char → Option (List Char)
  | [], cs => some cs
  | _ :: _, [] => none
  | p :: ps, c :: cs => if p = c then stripPre ps cs else none

/-- `art_url.strip_prefix("file://")`. -/
def stripFileScheme (s : String) : Option String :=
  (stripPre "file://".data s.data).map String.mk

/-- One decimal digit of a Rust integer literal. -/
def digitVal (c : Char) : Option Nat :=
  if c.isDigit then some (c.toNat - 48) else none

/-- Accumulate decimal digits left to right; fails on a non-digit. -/
def digitsToNat (acc : Nat) : List Char → Option Nat
  | [] => some acc
  | c :: cs =>
    match digitVal c with
    | some d => digitsToNat (acc * 10 + d) cs
    | none => none

/-- `[+-]?` followed by at least one digit. -/
def parseSignedInt : List Char → Option Int
  | [] => none
  | '+' :: cs =>
    if cs = [] then none else (digitsToNat 0 cs).map Int.ofNat
  | '-' :: cs =>
    if cs = [] then none else (digitsToNat 0 cs).map (fun n => -(Int.ofNat n))
  | cs => (digitsToNat 0 cs).map Int.ofNat

/-- Rust `s.parse::<i64>()`: signed decimal within the `i64` range. -/
def parseI64 (s : String) : Option Int :=
  match parseSignedInt s.data with
  | some n => if -(2 ^ 63) ≤ n ∧ n ≤ 2 ^ 63 - 1 then some n else none
  | none => none

/-- The custom `Deserialize for TrackInfo` impl: reads the fields out of
the JSON map, strips the `file://` marker from `art_url` (setting
`art_is_local`), parses `length` from its string encoding, derives
`paused` from `status` (paused unless the status is exactly "Playing",
absent status means paused), and stamps `start` with the current time
`now` (the source never reports a start time). -/
def decodeTrack (m : JMap) (now : Int) : TrackInfo :=
  let art_url0 := ((asStr (jget m "art_url")).getD "")
  let local? := stripFileScheme art_url0
  { title := (asStr (jget m "title")).getD ""
    artist := (asStr (jget m "artist")).getD ""
    album := (asStr (jget m "album")).getD ""
    player := (asStr (jget m "player")).getD ""
    art_url := match local? with
      | some file => file
      | none => art_url0
    art_is_local := local?.isSome
    start := now
    length := ((asStr (jget m "length")).bind parseI64).getD 0
    paused := match jget m "status" with
      | some v => !(asStr (some v) == some "Playing")
      | none => true }

/-- The `TrackUpdate` enum consumed by the controller. -/
inductive TrackUpdate where
  | New (t : TrackInfo)
  | ImageUploaded (url : String)
  | None
  deriving Repr, DecidableEq

/-- Observable actions of the media listener loop body: spawning an upload
task for a local art path, forwarding a decoded record, or signalling that
nothing is playing. -/
inductive ListenerEv where
  | spawnUpload (path : String)
  | sendNew (t : TrackInfo)
  | sendNone
  deriving Repr, DecidableEq

/-- Loop body of `media_listener::subscribe` for one successfully decoded
record: if the art is local and its path differs from the dedup key
`last_track`, the key is set to the path and an upload task is spawned;
the record itself is always forwarded in the same step. Returns the new
dedup key and the emitted actions, in program order. -/
def stepLine (last_track : String) (track : TrackInfo) : String × List ListenerEv :=
  if track.art_is_local then
    if track.art_url != last_track then
      (track.art_url, [.spawnUpload track.art_url, .sendNew track])
    else
      (last_track, [.sendNew track])
  else
    (last_track, [.sendNew track])

/-- One raw line of `playerctl` output, as far as the loop distinguishes
them: a line that decodes to a record, a blank line (empty after trim),
or a malformed non-blank line. -/
inductive Line where
  | record (t : TrackInfo) : Line
  | blank : Line
  | malformed : Line
  deriving Repr, DecidableEq

/-- Loop body of `media_listener::subscribe` over a raw line: decoded
records go through `stepLine`, a blank line sends `TrackUpdate::None`, a
malformed non-blank line is silently ignored. -/
def stepLineL (last_track : String) (l : Line) : String × List ListenerEv :=
  match l with
  | .record t => stepLine last_track t
  | .blank => (last_track, [.sendNone])
  | .malformed => (last_track, [])

/-- Number of upload-task spawns in an action trace. -/
def spawnCount (evs : List ListenerEv) : Nat :=
  (evs.filter (fun e => match e with | .spawnUpload _ => true | _ => false)).length

/-- The resize gate of `media_listener::upload_cover`: with resizing
enabled (`resize = some size`) and a source image of dimensions `w × h`,
the image is resized (and written to the fixed temporary path) exactly
when `size.0 > w && size.1 > h`. -/
def resizeDecision (resize : Option (Nat × Nat)) (w h : Nat) : Bool :=
  match resize with
  | some size => decide (size.1 > w) && decide (size.2 > h)
  | none => false

/-- The file `upload_cover` actually uploads: the fixed temporary path
when the resize gate fires, otherwise the original source path. -/
def uploadSourcePath (resize : Option (Nat × Nat)) (url : String) (w h : Nat) : String :=
  if resizeDecision resize w h then "/tmp/music_presence_tmp_cover.jpg" else url

/-- UTF-8 encoding of one scalar value, byte values as `Nat`. -/
def utf8Bytes (c : Char) : List Nat :=
  let n := c.toNat
  if n < 0x80 then [n]
  else if n < 0x800 then
    [0xC0 ||| (n >>> 6), 0x80 ||| (n &&& 0x3F)]
  else if n < 0x10000 then
    [0xE0 ||| (n >>> 12), 0x80 ||| ((n >>> 6) &&& 0x3F), 0x80 ||| (n &&& 0x3F)]
  else
    [0xF0 ||| (n >>> 18), 0x80 ||| ((n >>> 12) &&& 0x3F),
      0x80 ||| ((n >>> 6) &&& 0x3F), 0x80 ||| (n &&& 0x3F)]

/-- Bytes left untouched by `urlencoding::encode`: ASCII alphanumerics and
`-`, `_`, `.`, `~`. -/
def isUrlSafeByte (b : Nat) : Bool :=
  (65 ≤ b && b ≤ 90) || (97 ≤ b && b ≤ 122) || (48 ≤ b && b ≤ 57)
    || b == 45 || b == 95 || b == 46 || b == 126

/-- Uppercase hexadecimal digit. -/
def hexChar (n : Nat) : Char :=
  if n < 10 then Char.ofNat (48 + n) else Char.ofNat (55 + n)

/-- Percent-encoding of one byte. -/
def encodeByte (b : Nat) : List Char :=
  if isUrlSafeByte b then [Char.ofNat b] else ['%', hexChar (b / 16), hexChar (b % 16)]

/-- `urlencoding::encode`: percent-encode every UTF-8 byte outside the
unreserved set. -/
def urlencode (s : String) : String :=
  String.mk (List.foldr
    (fun c acc => List.foldr (fun b a => encodeByte b ++ a) acc (utf8Bytes c)) [] s.data)

/-- The activity payload `App::set_activity` builds and sends, field for
field. -/
structure ActivityData where
  state_fmt : String
  details : String
  large_image : String
  start_ts : Int
  end_ts : Int
  buttons : List (String × String)
  deriving Repr, DecidableEq

/-- Pure computation of the activity payload from the current track and
the button configuration, as in the body of `App::set_activity`. -/
def mkActivity (hide_repository_button : Bool) (t : TrackInfo) : ActivityData :=
  let state_fmt := "by: " ++ t.artist
    ++ (if !t.album.isEmpty then ", in: " ++ t.album else "")
  let query := urlencode (t.title ++ " " ++ t.artist)
  let url := "https://yewtu.be/search?q=" ++ query ++ "&type=video"
  { state_fmt := state_fmt
    details := t.title
    large_image := t.art_url
    start_ts := t.start
    end_ts := t.start + Int.tdiv t.length 1000
    buttons := [("Listen along", url)]
      ++ (if !hide_repository_button then
            [("View repository", "https://github.com/faervan/music_presence")]
          else []) }

/-- Success oracle for the opaque Discord IPC operations: client creation,
connect, set-activity, clear-activity and close. -/
structure Ipc where
  newOk : Bool
  connectOk : Bool
  setOk : Bool
  clearOk : Bool
  closeOk : Bool
  deriving Repr, DecidableEq

/-- An IPC on which every operation succeeds. -/
def allOk : Ipc := { newOk := true, connectOk := true, setOk := true,
                     clearOk := true, closeOk := true }

/-- An IPC on which client creation succeeds but every apply and connect
operation fails. -/
def failIpc : Ipc := { newOk := true, connectOk := false, setOk := false,
                       clearOk := false, closeOk := false }

/-- Mutable state of the `App` struct relevant to `handle`: the stored
current track and the optional `DiscordIpcClient` handle. -/
structure AppState where
  track : TrackInfo
  client : Option Unit
  deriving Repr, DecidableEq

/-- The remote side visible through the session: the currently displayed
activity, if any. -/
structure World where
  displayed : Option ActivityData
  deriving Repr, DecidableEq

/-- `App::set_activity`: connect lazily when no client is held (on connect
failure the client slot stays empty), then send the activity computed by
`mkActivity`; on success the remote display shows that activity. Returns
the new app state, the new world, and whether the call returned `Ok`. -/
def set_activity (ipc : Ipc) (hide_repository_button : Bool)
    (s : AppState) (w : World) : AppState × World × Bool :=
  match s.client with
  | some _ =>
    if ipc.setOk then
      (s, { displayed := some (mkActivity hide_repository_button s.track) }, true)
    else
      (s, w, false)
  | none =>
    if ipc.newOk then
      if ipc.connectOk then
        let s1 : AppState := { track := s.track, client := some () }
        if ipc.setOk then
          (s1, { displayed := some (mkActivity hide_repository_button s1.track) }, true)
        else
          (s1, w, false)
      else
        (s, w, false)
    else
      (s, w, false)

/-- `App::clear_activity`: when a client is held, clear the remote
activity, close the connection and drop the handle (stopping at the first
failing call); when no client is held, do nothing and return `Ok`. -/
def clear_activity (ipc : Ipc) (s : AppState) (w : World) :
    AppState × World × Bool :=
  match s.client with
  | none => (s, w, true)
  | some _ =>
    if ipc.clearOk then
      if ipc.closeOk then
        ({ track := s.track, client := none }, { displayed := none }, true)
      else
        (s, { displayed := none }, false)
    else
      (s, w, false)

/-- Which arm of the `match` in `App::handle` ran (mirroring its log
lines): pause-clear, new-track adoption, unpause refresh, cover-upload
completion, or stop. -/
inductive Branch where
  | pausedClear
  | adopt
  | refresh
  | artResolved
  | stopped
  deriving Repr, DecidableEq

/-- `App::handle`: dispatch one `TrackUpdate`. A paused record clears the
activity (the stored track is untouched); a record unequal (by
`TrackInfo.beq`) to the stored one is adopted and applied; an equal one is
re-applied as an unpause refresh; `ImageUploaded` overwrites the stored
record's art reference and re-applies; `None` clears. Also reports the
branch taken. -/
def handle (ipc : Ipc) (hide_repository_button : Bool) (u : TrackUpdate)
    (s : AppState) (w : World) : AppState × World × Bool × Branch :=
  match u with
  | .New new_track =>
    if new_track.paused then
      let r := clear_activity ipc s w
      (r.1, r.2.1, r.2.2, .pausedClear)
    else if !(TrackInfo.beq new_track s.track) then
      let s1 : AppState := { track := new_track, client := s.client }
      let r := set_activity ipc hide_repository_button s1 w
      (r.1, r.2.1, r.2.2, .adopt)
    else
      let r := set_activity ipc hide_repository_button s w
      (r.1, r.2.1, r.2.2, .refresh)
  | .ImageUploaded url =>
    let s1 : AppState :=
      { track := { s.track with art_url := url }, client := s.client }
    let r := set_activity ipc hide_repository_button s1 w
    (r.1, r.2.1, r.2.2, .artResolved)
  | .None =>
    let r := clear_activity ipc s w
    (r.1, r.2.1, r.2.2, .stopped)

/-- Observable events of the retry loop in `main`: one `handle` attempt,
the discard of the client handle after a failed attempt, the fixed
one-second wait, and giving up on the update. -/
inductive Ev where
  | attempt
  | discardClient
  | sleep1
  | dropUpdate
  deriving Repr, DecidableEq

/-- The `for i in 0..retries` loop of `main`, recursing on the remaining
iteration count: call `handle`; on success break; on failure drop the
client handle, and either sleep and retry (when iterations remain) or
warn and drop the update. Returns the final state, world and event
trace. -/
def retryAux (ipc : Ipc) (hide_repository_button : Bool) (u : TrackUpdate) :
    Nat → AppState → World → AppState × World × List Ev
  | 0, s, w => (s, w, [])
  | n + 1, s, w =>
    let r := handle ipc hide_repository_button u s w
    if r.2.2.1 then
      (r.1, r.2.1, [.attempt])
    else
      let s1 : AppState := { track := r.1.track, client := none }
      if n > 0 then
        let rest := retryAux ipc hide_repository_button u n s1 r.2.1
        (rest.1, rest.2.1, .attempt :: .discardClient :: .sleep1 :: rest.2.2)
      else
        (s1, r.2.1, [.attempt, .discardClient, .dropUpdate])

/-- Processing of one received update by `main`: run the retry loop with
the configured retry count. -/
def processUpdate (ipc : Ipc) (hide_repository_button : Bool)
    (u : TrackUpdate) (retries : Nat) (s : AppState) (w : World) :
    AppState × World × List Ev :=
  retryAux ipc hide_repository_button u retries s w

/-- Number of `handle` attempts in a retry-loop trace. -/
def attemptCount (evs : List Ev) : Nat :=
  (evs.filter (fun e => e == Ev.attempt)).length

/-- Updates whose handling applies an activity to the session (a
non-paused track or a completed cover upload), as opposed to clearing
it. -/
def appliesActivity : TrackUpdate → Bool
  | .New t => !t.paused
  | .ImageUploaded _ => true
  | .None => false

/-- A sample record with local cover art, used as concrete witness
input. -/
def sampleLocal : TrackInfo :=
  { title := "A", artist := "B", album := "", art_url := "/tmp/cover.jpg",
    player := "kew", art_is_local := true, start := 0, length := 180000000,
    paused := false }

/-- The decoded `serde_json` map of the round-trip scenario input line. -/
def scenarioMap : JMap :=
  [("title", JVal.str "A"), ("artist", JVal.str "B"), ("album", JVal.str ""),
   ("art_url", JVal.str "file:///tmp/x.jpg"), ("length", JVal.str "180000000"),
   ("status", JVal.str "Playing"), ("player", JVal.str "kew")]

theorem data_append (s t : String) : (s ++ t).data = s.data ++ t.data := rfl

theorem stripPre_append (p r : List Char) : stripPre p (p ++ r) = some r := by
  induction p with
  | nil => rfl
  | cons c cs ih => simp [stripPre, ih]

theorem stripPre_some (p : List Char) :
    ∀ s r : List Char, stripPre p s = some r → s = p ++ r := by
  induction p with
  | nil =>
    intro s r h
    simp [stripPre] at h
    simp [h]
  | cons c cs ih =>
    intro s r h
    cases s with
    | nil => simp [stripPre] at h
    | cons d ds =>
      by_cases hc : c = d
      · subst hc
        simp [stripPre] at h
        simpa using ih ds r h
      · simp [stripPre, hc] at h

theorem stripFileScheme_append (rest : String) :
    stripFileScheme ("file://" ++ rest) = some rest := by
  unfold stripFileScheme
  rw [data_append, stripPre_append]
  rfl

theorem stripFileScheme_none (s : String)
    (h : ∀ r : String, s ≠ "file://" ++ r) : stripFileScheme s = none := by
  cases hs : stripFileScheme s with
  | none => rfl
  | some r =>
    exfalso
    unfold stripFileScheme at hs
    cases hp : stripPre "file://".data s.data with
    | none => simp [hp] at hs
    | some r0 =>
      have hdata := stripPre_some "file://".data s.data r0 hp
      have : s = "file://" ++ String.mk r0 := by
        have : String.mk s.data = String.mk ("file://".data ++ r0) := by rw [hdata]
        simpa using this
      exact h (String.mk r0) this

theorem beq_iff (a b : TrackInfo) : TrackInfo.beq a b = true ↔
    (a.title = b.title ∧ a.artist = b.artist ∧ a.album = b.album
      ∧ a.art_is_local = b.art_is_local ∧ a.length = b.length) := by
  simp [TrackInfo.beq]
  tauto

theorem set_activity_track (ipc : Ipc) (hide : Bool) (s : AppState) (w : World) :
    (set_activity ipc hide s w).1.track = s.track := by
  cases hc : s.client <;>
    cases hn : ipc.newOk <;> cases hco : ipc.connectOk <;> cases hs : ipc.setOk <;>
      simp [set_activity, hc, hn, hco, hs]

theorem clear_activity_track (ipc : Ipc) (s : AppState) (w : World) :
    (clear_activity ipc s w).1.track = s.track := by
  cases hc : s.client <;>
    cases hcl : ipc.clearOk <;> cases hcs : ipc.closeOk <;>
      simp [clear_activity, hc, hcl, hcs]

/-- C2: the claim says the upload task only ever shrinks — resize when the
source exceeds the target, skip when the source is smaller than the target
in both dimensions. The code gate `size.0 > width && size.1 > height` is
the reverse: a 500 x 500 source with a 150 x 150 target is NOT resized
(the original is uploaded), while a 100 x 100 source IS resized (enlarged)
to the temporary path. -/
theorem c2_resize_gate_reversed :
    resizeDecision (some (150, 150)) 500 500 = false
      ∧ resizeDecision (some (150, 150)) 100 100 = true
      ∧ uploadSourcePath (some (150, 150)) "/tmp/cover.jpg" 500 500 = "/tmp/cover.jpg"
      ∧ uploadSourcePath (some (150, 150)) "/tmp/cover.jpg" 100 100
          = "/tmp/music_presence_tmp_cover.jpg" := by
  refine ⟨rfl, rfl, rfl, rfl⟩

/-- C10: with a configured retry count of 0, the `for i in 0..0` loop body
never runs: the update is dequeued and discarded with zero `handle`
attempts, and the app state and world are unchanged. -/
theorem c10_zero_retries (ipc : Ipc) (hide : Bool) (u : TrackUpdate)
    (s : AppState) (w : World) :
    processUpdate ipc hide u 0 s w = (s, w, [])
      ∧ attemptCount (processUpdate ipc hide u 0 s w).2.2 = 0 :=
  ⟨rfl, rfl⟩

/-- C4: an upload is spawned iff the record's art is local and its path
differs from the dedup key; the record is always forwarded in the same
step; on a spawn the dedup key becomes the new path; and two consecutive
records with the same local art path spawn at most one upload. -/
theorem c4_upload_dedup (last_track : String) (u t t2 : TrackInfo)
    (h1 : t.art_is_local = true) (h2 : t2.art_is_local = true)
    (hsame : t2.art_url = t.art_url) :
    (ListenerEv.spawnUpload u.art_url ∈ (stepLine last_track u).2
        ↔ (u.art_is_local = true ∧ u.art_url ≠ last_track))
    ∧ ListenerEv.sendNew u ∈ (stepLine last_track u).2
    ∧ ((u.art_is_local = true ∧ u.art_url ≠ last_track) →
        (stepLine last_track u).1 = u.art_url)
    ∧ spawnCount ((stepLine last_track t).2
        ++ (stepLine (stepLine last_track t).1 t2).2) ≤ 1 := by
  refine ⟨?_, ?_, ?_, ?_⟩
  · by_cases hl : u.art_is_local = true <;>
      by_cases hd : u.art_url = last_track <;>
        simp [stepLine, hl, hd]
  · by_cases hl : u.art_is_local = true <;>
      by_cases hd : u.art_url = last_track <;>
        simp [stepLine, hl, hd]
  · by_cases hl : u.art_is_local = true <;>
      by_cases hd : u.art_url = last_track <;>
        simp [stepLine, hl, hd]
  · by_cases hd : t.art_url = last_track
    · simp [stepLine, h1, h2, hd, hsame, spawnCount]
    · simp [stepLine, h1, h2, hd, hsame, spawnCount]

/-- Closed instance of `c4_upload_dedup`: the same local path in two
consecutive records spawns at most one upload. -/
theorem c4_upload_dedup_witness :
    spawnCount ((stepLine "" sampleLocal).2
      ++ (stepLine (stepLine "" sampleLocal).1 sampleLocal).2) ≤ 1 :=
  (c4_upload_dedup "" sampleLocal sampleLocal sampleLocal rfl rfl rfl).2.2.2

/-- C7: decoding strips the `file://` marker into `art_is_local = true`,
otherwise stores the art field verbatim with `art_is_local = false`;
`paused` is false exactly when the status field is the string "Playing"
(a missing status field gives `paused = true`); and the round-trip
scenario line decodes to a local art reference `/tmp/x.jpg`, length
180000000 and `paused = false`, with activity state text "by: B". -/
theorem c7_decode_rules (m : JMap) (now : Int) (rest : String) :
    ((asStr (jget m "art_url")).getD "" = "file://" ++ rest →
        (decodeTrack m now).art_is_local = true
          ∧ (decodeTrack m now).art_url = rest)
    ∧ ((∀ r : String, (asStr (jget m "art_url")).getD "" ≠ "file://" ++ r) →
        (decodeTrack m now).art_is_local = false
          ∧ (decodeTrack m now).art_url = (asStr (jget m "art_url")).getD "")
    ∧ ((decodeTrack m now).paused = false ↔ jget m "status" = some (JVal.str "Playing"))
    ∧ (jget m "status" = none → (decodeTrack m now).paused = true)
    ∧ (decodeTrack scenarioMap now).art_is_local = true
    ∧ (decodeTrack scenarioMap now).art_url = "/tmp/x.jpg"
    ∧ (decodeTrack scenarioMap now).length = 180000000
    ∧ (decodeTrack scenarioMap now).paused = false
    ∧ (mkActivity false (decodeTrack scenarioMap now)).state_fmt = "by: B" := by
  refine ⟨?_, ?_, ?_, ?_, ?_, ?_, ?_, ?_, ?_⟩
  · intro hraw
    simp [decodeTrack, hraw, stripFileScheme_append]
  · intro hraw
    simp [decodeTrack, stripFileScheme_none _ hraw]
  · simp only [decodeTrack]
    cases hst : jget m "status" with
    | none => simp [hst]
    | some v =>
      cases v with
      | str s =>
        by_cases hs : s = "Playing" <;> simp [hst, asStr, hs]
      | other => simp [hst, asStr]
  · intro hst
    simp [decodeTrack, hst]
  · rfl
  · rfl
  · rfl
  · rfl
  · rfl

/-- Closed instance of `c7_decode_rules` at the scenario input, with the
marker-stripping hypothesis discharged concretely. -/
theorem c7_decode_rules_witness :
    (decodeTrack scenarioMap 0).art_is_local = true
      ∧ (decodeTrack scenarioMap 0).art_url = "/tmp/x.jpg" :=
  (c7_decode_rules scenarioMap 0 "/tmp/x.jpg").1 (by decide)

theorem beq_symm {a b : TrackInfo} (h : TrackInfo.beq a b = true) :
    TrackInfo.beq b a = true := by
  rw [beq_iff] at h ⊢
  obtain ⟨x1, x2, x3, x4, x5⟩ := h
  exact ⟨x1.symm, x2.symm, x3.symm, x4.symm, x5.symm⟩

theorem beq_trans {a b c : TrackInfo} (h1 : TrackInfo.beq a b = true)
    (h2 : TrackInfo.beq b c = true) : TrackInfo.beq a c = true := by
  rw [beq_iff] at h1 h2 ⊢
  obtain ⟨x1, x2, x3, x4, x5⟩ := h1
  obtain ⟨y1, y2, y3, y4, y5⟩ := h2
  exact ⟨x1.trans y1, x2.trans y2, x3.trans y3, x4.trans y4, x5.trans y5⟩

theorem handle_new_paused (ipc : Ipc) (hide : Bool) (t : TrackInfo)
    (s : AppState) (w : World) (hp : t.paused = true) :
    handle ipc hide (.New t) s w
      = ((clear_activity ipc s w).1, (clear_activity ipc s w).2.1,
         (clear_activity ipc s w).2.2, Branch.pausedClear) := by
  simp [handle, hp]

theorem handle_new_refresh (ipc : Ipc) (hide : Bool) (t : TrackInfo)
    (s : AppState) (w : World) (hp : t.paused = false)
    (hb : TrackInfo.beq t s.track = true) :
    handle ipc hide (.New t) s w
      = ((set_activity ipc hide s w).1, (set_activity ipc hide s w).2.1,
         (set_activity ipc hide s w).2.2, Branch.refresh) := by
  simp [handle, hp, hb]

theorem handle_new_adopt (ipc : Ipc) (hide : Bool) (t : TrackInfo)
    (s : AppState) (w : World) (hp : t.paused = false)
    (hb : TrackInfo.beq t s.track = false) :
    handle ipc hide (.New t) s w
      = ((set_activity ipc hide ⟨t, s.client⟩ w).1,
         (set_activity ipc hide ⟨t, s.client⟩ w).2.1,
         (set_activity ipc hide ⟨t, s.client⟩ w).2.2, Branch.adopt) := by
  simp [handle, hp, hb]

/-- C3: `TrackInfo` equality compares exactly title, artist, album,
`art_is_local` and length (art reference and paused flag excluded), and
a second consecutive non-paused record equal to the first takes the
refresh branch without adopting a new current track. -/
theorem c3_equality_and_refresh (ipc : Ipc) (hide : Bool)
    (a b t1 t2 : TrackInfo) (s : AppState) (w : World)
    (hp1 : t1.paused = false) (hp2 : t2.paused = false)
    (heq : TrackInfo.beq t1 t2 = true) :
    (TrackInfo.beq a b = true ↔
      (a.title = b.title ∧ a.artist = b.artist ∧ a.album = b.album
        ∧ a.art_is_local = b.art_is_local ∧ a.length = b.length))
    ∧ (handle ipc hide (.New t2)
        (handle ipc hide (.New t1) s w).1
        (handle ipc hide (.New t1) s w).2.1).2.2.2 = Branch.refresh
    ∧ (handle ipc hide (.New t2)
        (handle ipc hide (.New t1) s w).1
        (handle ipc hide (.New t1) s w).2.1).1.track
        = (handle ipc hide (.New t1) s w).1.track := by
  have h1track : TrackInfo.beq t2 (handle ipc hide (.New t1) s w).1.track = true := by
    by_cases hb : TrackInfo.beq t1 s.track = true
    · rw [handle_new_refresh ipc hide t1 s w hp1 hb]
      rw [set_activity_track]
      exact beq_trans (beq_symm heq) hb
    · rw [handle_new_adopt ipc hide t1 s w hp1 (by simpa using hb)]
      rw [set_activity_track]
      exact beq_symm heq
  refine ⟨beq_iff a b, ?_, ?_⟩
  · rw [handle_new_refresh ipc hide t2 _ _ hp2 h1track]
  · rw [handle_new_refresh ipc hide t2 _ _ hp2 h1track]
    exact set_activity_track ipc hide _ _

/-- Closed instance of `c3_equality_and_refresh`: a repeated non-paused
record takes the refresh branch on its second arrival. -/
theorem c3_equality_and_refresh_witness :
    (handle allOk false (.New sampleLocal)
      (handle allOk false (.New sampleLocal) ⟨TrackInfo.dflt, none⟩ ⟨none⟩).1
      (handle allOk false (.New sampleLocal) ⟨TrackInfo.dflt, none⟩ ⟨none⟩).2.1).2.2.2
      = Branch.refresh :=
  (c3_equality_and_refresh allOk false sampleLocal sampleLocal sampleLocal sampleLocal
    ⟨TrackInfo.dflt, none⟩ ⟨none⟩ rfl rfl (by decide)).2.1

/-- C9: a paused record clears the activity but never touches the stored
current track, so a following unpaused record equal to the pre-pause
current track takes the refresh branch, not the new-track branch. When a
session was open and its operations succeed, the displayed activity is
indeed cleared. -/
theorem c9_paused_frame (ipc : Ipc) (hide : Bool) (t t2 : TrackInfo)
    (s : AppState) (w : World)
    (hp : t.paused = true) (h2 : t2.paused = false)
    (heq : TrackInfo.beq t2 s.track = true) :
    (handle ipc hide (.New t) s w).1.track = s.track
    ∧ (handle ipc hide (.New t) s w).2.2.2 = Branch.pausedClear
    ∧ (s.client.isSome = true ∧ ipc.clearOk = true ∧ ipc.closeOk = true →
        (handle ipc hide (.New t) s w).2.1.displayed = none)
    ∧ (handle ipc hide (.New t2)
        (handle ipc hide (.New t) s w).1
        (handle ipc hide (.New t) s w).2.1).2.2.2 = Branch.refresh
    ∧ (handle ipc hide (.New t2)
        (handle ipc hide (.New t) s w).1
        (handle ipc hide (.New t) s w).2.1).1.track = s.track := by
  have htrack : (handle ipc hide (.New t) s w).1.track = s.track := by
    rw [handle_new_paused ipc hide t s w hp]
    exact clear_activity_track ipc s w
  have hb2 : TrackInfo.beq t2 (handle ipc hide (.New t) s w).1.track = true := by
    rw [htrack]; exact heq
  refine ⟨htrack, ?_, ?_, ?_, ?_⟩
  · rw [handle_new_paused ipc hide t s w hp]
  · rintro ⟨hs, hcl, hcs⟩
    rw [handle_new_paused ipc hide t s w hp]
    cases hc : s.client with
    | none => simp [hc] at hs
    | some u => simp [clear_activity, hc, hcl, hcs]
  · rw [handle_new_refresh ipc hide t2 _ _ h2 hb2]
  · rw [handle_new_refresh ipc hide t2 _ _ h2 hb2, set_activity_track, htrack]

/-- Closed instance of `c9_paused_frame`: a paused record leaves the
stored track unchanged. -/
theorem c9_paused_frame_witness :
    (handle allOk false (.New { sampleLocal with paused := true })
        ⟨sampleLocal, some ()⟩ ⟨some (mkActivity false sampleLocal)⟩).1.track
      = sampleLocal :=
  (c9_paused_frame allOk false { sampleLocal with paused := true } sampleLocal
    ⟨sampleLocal, some ()⟩ ⟨some (mkActivity false sampleLocal)⟩
    rfl rfl (by decide)).1

/-- C8: the activity applied for an adopted record has start timestamp
equal to the record's start and end timestamp equal to start plus
length divided by 1000 with truncation; 245999 yields an offset of
245. -/
theorem c8_timestamps (hide : Bool) (t : TrackInfo) (s : AppState) (w : World)
    (hp : t.paused = false) (hb : TrackInfo.beq t s.track = false) :
    (handle allOk hide (.New t) s w).2.1.displayed = some (mkActivity hide t)
    ∧ (mkActivity hide t).start_ts = t.start
    ∧ (mkActivity hide t).end_ts = t.start + Int.tdiv t.length 1000
    ∧ Int.tdiv 245999 1000 = 245 := by
  refine ⟨?_, rfl, rfl, rfl⟩
  rw [handle_new_adopt allOk hide t s w hp hb]
  cases hc : s.client <;> simp [set_activity, allOk, hc]

/-- Closed instance of `c8_timestamps` at a record of length 245999. -/
theorem c8_timestamps_witness :
    (mkActivity false { sampleLocal with length := 245999 }).end_ts
      = ({ sampleLocal with length := 245999 } : TrackInfo).start
        + Int.tdiv ({ sampleLocal with length := 245999 } : TrackInfo).length 1000 :=
  (c8_timestamps false { sampleLocal with length := 245999 } ⟨TrackInfo.dflt, none⟩ ⟨none⟩
    rfl (by decide)).2.2.1

/-- C6: handling `None` (sent for every blank input line) with a held
client clears the displayed activity, closes and drops the session handle
(given the clear and close calls succeed); with no client held it is a
successful no-op from any prior state; either way the stored track is
untouched and the result is the Disconnected state. -/
theorem c6_stopped_clears (ipc : Ipc) (s : AppState) (w : World)
    (hide : Bool) (last_track : String)
    (hclear : ipc.clearOk = true) (hclose : ipc.closeOk = true) :
    (handle ipc hide TrackUpdate.None s w).1.client = none
    ∧ (handle ipc hide TrackUpdate.None s w).2.2.1 = true
    ∧ (handle ipc hide TrackUpdate.None s w).1.track = s.track
    ∧ (handle ipc hide TrackUpdate.None s w).2.2.2 = Branch.stopped
    ∧ (s.client.isSome = true →
        (handle ipc hide TrackUpdate.None s w).2.1.displayed = none)
    ∧ (s.client = none →
        handle ipc hide TrackUpdate.None s w = (s, w, true, Branch.stopped))
    ∧ stepLineL last_track Line.blank = (last_track, [ListenerEv.sendNone]) := by
  cases hc : s.client <;>
    simp [handle, clear_activity, hc, hclear, hclose, stepLineL]

/-- Closed instance of `c6_stopped_clears`: a `None` update with an open
session leaves no client handle held. -/
theorem c6_stopped_clears_witness :
    (handle allOk false TrackUpdate.None
        ⟨sampleLocal, some ()⟩ ⟨some (mkActivity false sampleLocal)⟩).1.client = none :=
  (c6_stopped_clears allOk ⟨sampleLocal, some ()⟩ ⟨some (mkActivity false sampleLocal)⟩
    false "" rfl rfl).1

/-- A record for a different current track, adopted after the upload of an
earlier track's local cover art was started. Its art reference is a
remote URL. -/
def sampleOther : TrackInfo :=
  { title := "C", artist := "D", album := "E", art_url := "https://example.org/c.jpg",
    player := "kew", art_is_local := false, start := 5, length := 100000,
    paused := false }

/-- C1 fails on the code: with `sampleOther` current (a different track,
by identity, than the one whose art was uploaded), handling
`ImageUploaded` DOES overwrite the current track's art reference with the
uploaded URL, and the displayed activity shows that URL. -/
theorem c1_counterexample :
    (handle allOk false (.ImageUploaded "https://tmpfiles.org/dl/1/a.jpg")
        ⟨sampleOther, some ()⟩ ⟨some (mkActivity false sampleOther)⟩).1.track.art_url
      = "https://tmpfiles.org/dl/1/a.jpg"
    ∧ sampleOther.art_url ≠ "https://tmpfiles.org/dl/1/a.jpg"
    ∧ (handle allOk false (.ImageUploaded "https://tmpfiles.org/dl/1/a.jpg")
        ⟨sampleOther, some ()⟩ ⟨some (mkActivity false sampleOther)⟩).2.1.displayed
      = some (mkActivity false { sampleOther with art_url := "https://tmpfiles.org/dl/1/a.jpg" }) := by
  refine ⟨rfl, by decide, rfl⟩

/-- C1 amended: handling `ImageUploaded(url)` unconditionally overwrites
the stored current record's art reference with `url` and re-applies the
activity (connecting lazily when needed), whatever track is current; the
controller has no track-less state (it starts from the default record),
so the handler is never a no-op. -/
theorem c1_art_overwrite (hide : Bool) (url : String) (s : AppState) (w : World) :
    handle allOk hide (.ImageUploaded url) s w
      = (⟨{ s.track with art_url := url }, some ()⟩,
         ⟨some (mkActivity hide { s.track with art_url := url })⟩,
         true, Branch.artResolved) := by
  cases hc : s.client <;> simp [handle, set_activity, allOk, hc]

/-- Number of occurrences of one retry-loop event in a trace. -/
def countEv (e : Ev) (evs : List Ev) : Nat :=
  (evs.filter (fun x => x == e)).length

/-- Trace of the retry loop when every attempt fails: an attempt, a
discard of the session handle and a sleep for each non-final iteration,
then a final attempt, discard and drop of the update. -/
def failTrace : Nat → List Ev
  | 0 => []
  | 1 => [.attempt, .discardClient, .dropUpdate]
  | n + 2 => .attempt :: .discardClient :: .sleep1 :: failTrace (n + 1)

theorem handle_failIpc_fails (hide : Bool) (u : TrackUpdate)
    (s : AppState) (w : World) (hu : appliesActivity u = true) :
    (handle failIpc hide u s w).2.2.1 = false := by
  cases u with
  | New t =>
    have hp : t.paused = false := by
      simpa [appliesActivity] using hu
    by_cases hb : TrackInfo.beq t s.track = true <;>
      cases hc : s.client <;>
        simp [handle, set_activity, failIpc, hp, hb, hc]
  | ImageUploaded url =>
    cases hc : s.client <;> simp [handle, set_activity, failIpc, hc]
  | None => simp [appliesActivity] at hu

theorem retryAux_succ (ipc : Ipc) (hide : Bool) (u : TrackUpdate) (n : Nat)
    (s : AppState) (w : World) :
    retryAux ipc hide u (n + 1) s w =
      (if (handle ipc hide u s w).2.2.1 then
        ((handle ipc hide u s w).1, (handle ipc hide u s w).2.1, [.attempt])
      else if n > 0 then
        ((retryAux ipc hide u n ⟨(handle ipc hide u s w).1.track, none⟩
            (handle ipc hide u s w).2.1).1,
         (retryAux ipc hide u n ⟨(handle ipc hide u s w).1.track, none⟩
            (handle ipc hide u s w).2.1).2.1,
         .attempt :: .discardClient :: .sleep1 ::
           (retryAux ipc hide u n ⟨(handle ipc hide u s w).1.track, none⟩
              (handle ipc hide u s w).2.1).2.2)
      else
        (⟨(handle ipc hide u s w).1.track, none⟩, (handle ipc hide u s w).2.1,
         [.attempt, .discardClient, .dropUpdate])) := rfl

theorem retry_fail_trace (hide : Bool) (u : TrackUpdate)
    (hu : appliesActivity u = true) :
    ∀ N, 1 ≤ N → ∀ (s : AppState) (w : World),
      (retryAux failIpc hide u N s w).2.2 = failTrace N
        ∧ (retryAux failIpc hide u N s w).1.client = none := by
  intro N
  induction N with
  | zero => intro h; omega
  | succ n ih =>
    intro _ s w
    have hfail := handle_failIpc_fails hide u s w hu
    cases n with
    | zero =>
      rw [retryAux_succ, hfail]
      simp [failTrace]
    | succ m =>
      have hrec := ih (by omega)
        ⟨(handle failIpc hide u s w).1.track, none⟩
        (handle failIpc hide u s w).2.1
      rw [retryAux_succ, hfail]
      simp only [Bool.false_eq_true, if_false, gt_iff_lt, Nat.succ_pos, if_true]
      rw [show failTrace (m + 2)
            = .attempt :: .discardClient :: .sleep1 :: failTrace (m + 1) from rfl]
      exact ⟨by rw [hrec.1], hrec.2⟩

theorem failTrace_counts :
    ∀ N, 1 ≤ N →
      attemptCount (failTrace N) = N
        ∧ countEv Ev.discardClient (failTrace N) = N
        ∧ countEv Ev.sleep1 (failTrace N) = N - 1
        ∧ countEv Ev.dropUpdate (failTrace N) = 1 := by
  intro N
  induction N with
  | zero => intro h; omega
  | succ n ih =>
    intro _
    cases n with
    | zero => refine ⟨rfl, rfl, rfl, rfl⟩
    | succ m =>
      have hrec := ih (by omega)
      rw [show failTrace (m + 2) = .attempt :: .discardClient :: .sleep1 :: failTrace (m + 1) from rfl]
      refine ⟨?_, ?_, ?_, ?_⟩
      · simpa [attemptCount] using hrec.1
      · simpa [countEv] using hrec.2.1
      · simpa [countEv] using hrec.2.2.1
      · simpa [countEv] using hrec.2.2.2

/-- C5 fails as stated: the quantification over every update is too
strong. With 3 configured retries and a session on which every apply and
connect operation fails, a `Stopped` update arriving while no session is
held is handled successfully on the first try (clearing with no client is
a no-op), so only one attempt is made, not 3. -/
theorem c5_counterexample :
    attemptCount (processUpdate failIpc false TrackUpdate.None 3
        ⟨TrackInfo.dflt, none⟩ ⟨none⟩).2.2 = 1
      ∧ (1 : Nat) ≠ 3 := by
  refine ⟨rfl, by omega⟩

/-- C5 amended: for every update that applies an activity (a non-paused
record or a completed cover upload), with retry count N at least 1 and a
session on which every apply and connect operation fails, the loop makes
exactly N attempts, discards the client handle after each failure, sleeps
exactly N - 1 times between attempts, drops the update exactly once at
the end, and finishes with no session handle held. -/
theorem c5_retry_exhaustion (hide : Bool) (u : TrackUpdate) (N : Nat)
    (s : AppState) (w : World) (hN : 1 ≤ N) (hu : appliesActivity u = true) :
    (processUpdate failIpc hide u N s w).2.2 = failTrace N
    ∧ (processUpdate failIpc hide u N s w).1.client = none
    ∧ attemptCount (failTrace N) = N
    ∧ countEv Ev.discardClient (failTrace N) = N
    ∧ countEv Ev.sleep1 (failTrace N) = N - 1
    ∧ countEv Ev.dropUpdate (failTrace N) = 1 :=
  ⟨(retry_fail_trace hide u hu N hN s w).1,
   (retry_fail_trace hide u hu N hN s w).2,
   (failTrace_counts N hN).1,
   (failTrace_counts N hN).2.1,
   (failTrace_counts N hN).2.2.1,
   (failTrace_counts N hN).2.2.2⟩

/-- Closed instance of `c5_retry_exhaustion`: three retries on an
always-failing session for a fresh record yield the three-attempt
trace. -/
theorem c5_retry_exhaustion_witness :
    (processUpdate failIpc false (.New sampleLocal) 3
        ⟨TrackInfo.dflt, none⟩ ⟨none⟩).2.2 = failTrace 3 :=
  (c5_retry_exhaustion false (.New sampleLocal) 3 ⟨TrackInfo.dflt, none⟩ ⟨none⟩
    (by omega) rfl).1
